import Mathlib

/-!
Verification development for the beads_viewer issue-graph analytics engine
and its TUI model. Go sources are shallowly embedded: pure functions become
Lean functions, the Bubble Tea update loop becomes explicit state passing on
a `TuiModel` record, fallible paths return `Except`, and `float64` threshold
arithmetic is carried out over `ℚ`. Components of `pkg/analysis` that are not
in the source tree are modelled from the specification and marked as such.
-/

/-! ## Data model (pkg/model, as used by the embedded code) -/

/-- Issue status (`model.Status`): open / in_progress / blocked / closed. -/
inductive Status where
  | opened
  | inProgress
  | blocked
  | closed
deriving DecidableEq

/-- Dependency edge kind (`model.DependencyType`); only `blocks` participates
in blocking semantics. -/
inductive DepType where
  | blocks
  | related
deriving DecidableEq

/-- `DependencyType.IsBlocking`: per the spec only `blocks`-kind edges
participate in blocking/critical-path semantics. -/
def DepType.isBlocking : DepType → Bool
  | .blocks => true
  | .related => false

/-- `model.Dependency`: (from-issue-id, to-issue-id, kind). -/
structure Dependency where
  issueID : String
  dependsOnID : String
  type : DepType
deriving DecidableEq

/-- `model.Issue`, restricted to the fields the embedded operations read.
`dependencies` is a list of nullable pointers (`[]*model.Dependency`), hence
`Option Dependency`. -/
structure Issue where
  id : String
  status : Status
  priority : Int
  createdAt : Int
  dependencies : List (Option Dependency)
deriving DecidableEq

/-! ## Issue-map lookup and blocked/ready classification (pkg/ui) -/

/-- Go map built by `issueMap[issues[i].ID] = &issues[i]`: a later issue with
the same id overwrites an earlier one. -/
def issueMapLookup (issues : List Issue) (key : String) : Option Issue :=
  issues.foldl (fun acc i => if i.id = key then some i else acc) none

/-- `blocker, exists := issueMap[dep.DependsOnID]; exists && blocker.Status
!= model.StatusClosed` (model.go:386, model_filters.go:52). -/
def blockerOpenNotClosed (issues : List Issue) (depId : String) : Bool :=
  match issueMapLookup issues depId with
  | some b => !(b.status == Status.closed)
  | none => false

/-- The blocked check of `NewModel` (model.go:381-390): a `nil` dependency
entry is skipped (`dep == nil || !dep.Type.IsBlocking()` continues). -/
def newModelIsBlocked (issues : List Issue) (i : Issue) : Bool :=
  i.dependencies.any fun dep =>
    match dep with
    | none => false
    | some d => d.type.isBlocking && blockerOpenNotClosed issues d.dependsOnID

/-- The open/ready/blocked/closed counters cached on the model. -/
structure Counts where
  openCount : Nat
  readyCount : Nat
  blockedCount : Nat
  closedCount : Nat
deriving DecidableEq

/-- The stats loop of `NewModel` (model.go:366-394): closed issues count as
closed, the rest as open; of the open ones, status-blocked ones count as
blocked and those with no open blocking predecessor as ready. -/
def newModelCounts (issues : List Issue) : Counts :=
  issues.foldl
    (fun c i =>
      if i.status == Status.closed then
        { c with closedCount := c.closedCount + 1 }
      else
        let c := { c with openCount := c.openCount + 1 }
        if i.status == Status.blocked then
          { c with blockedCount := c.blockedCount + 1 }
        else if newModelIsBlocked issues i then c
        else { c with readyCount := c.readyCount + 1 })
    ⟨0, 0, 0, 0⟩

/-- The dependency loop of `applyFilter`'s "ready" case
(model_filters.go:50-57). The Go code reads `dep.Type` on every entry with
no nil check, so a `nil` entry reached before the loop breaks is a
nil-pointer dereference, embedded as `Except.error ()`. -/
def applyFilterReadyLoop (issues : List Issue) :
    List (Option Dependency) → Except Unit Bool
  | [] => .ok false
  | none :: _ => .error ()
  | some d :: rest =>
    if d.type == DepType.blocks && blockerOpenNotClosed issues d.dependsOnID then
      .ok true
    else
      applyFilterReadyLoop issues rest

/-- The "ready" inclusion decision of `applyFilter` (model_filters.go:46-59):
only open/in-progress issues enter the dependency loop; the result is the
negation of the blocked flag. -/
def applyFilterReadyInclude (issues : List Issue) (i : Issue) : Except Unit Bool :=
  if !(i.status == Status.closed) && !(i.status == Status.blocked) then
    (applyFilterReadyLoop issues i.dependencies).map (fun b => !b)
  else
    .ok false

/-- A concrete issue whose `Dependencies` slice contains a `nil` entry. -/
def nilDepIssue : Issue :=
  { id := "a", status := Status.opened, priority := 1, createdAt := 0
    dependencies := [none] }

/-! ## drift.Config (src/unnamed/part_000) -/

/-- `drift.Config`: drift detection thresholds. Go `float64` fields are
embedded as `ℚ`; all configured values and bounds are exact. -/
structure DriftConfig where
  densityWarningPct : ℚ
  densityInfoPct : ℚ
  nodeGrowthInfoPct : ℚ
  edgeGrowthInfoPct : ℚ
  blockedIncreaseThreshold : Int
  actionableDecreaseWarningPct : ℚ
  actionableIncreaseInfoPct : ℚ
  pageRankChangeWarningPct : ℚ
deriving DecidableEq

/-- `drift.DefaultConfig` (part_000:39-50). -/
def defaultConfig : DriftConfig :=
  { densityWarningPct := 50
    densityInfoPct := 20
    nodeGrowthInfoPct := 25
    edgeGrowthInfoPct := 25
    blockedIncreaseThreshold := 5
    actionableDecreaseWarningPct := 30
    actionableIncreaseInfoPct := 20
    pageRankChangeWarningPct := 50 }

/-- `(*Config).Validate` (part_000:119-145): returns the first violated
bound's message, or `none` when every field is within bounds. -/
def validateConfig (c : DriftConfig) : Option String :=
  if c.densityWarningPct < 0 ∨ c.densityWarningPct > 1000 then
    some "density_warning_pct must be between 0 and 1000"
  else if c.densityInfoPct < 0 ∨ c.densityInfoPct > c.densityWarningPct then
    some "density_info_pct must be between 0 and density_warning_pct"
  else if c.nodeGrowthInfoPct < 0 ∨ c.nodeGrowthInfoPct > 1000 then
    some "node_growth_info_pct must be between 0 and 1000"
  else if c.edgeGrowthInfoPct < 0 ∨ c.edgeGrowthInfoPct > 1000 then
    some "edge_growth_info_pct must be between 0 and 1000"
  else if c.blockedIncreaseThreshold < 0 then
    some "blocked_increase_threshold must be non-negative"
  else if c.actionableDecreaseWarningPct < 0 ∨ c.actionableDecreaseWarningPct > 100 then
    some "actionable_decrease_warning_pct must be between 0 and 100"
  else if c.actionableIncreaseInfoPct < 0 ∨ c.actionableIncreaseInfoPct > 1000 then
    some "actionable_increase_info_pct must be between 0 and 1000"
  else if c.pageRankChangeWarningPct < 0 ∨ c.pageRankChangeWarningPct > 1000 then
    some "pagerank_change_warning_pct must be between 0 and 1000"
  else
    none

/-- The outcome of reading and YAML-parsing `.bv/drift.yaml`, the external
input of `LoadConfig`: file absent, read error, or parsed content.
`content (some c)` is the config after `yaml.Unmarshal` overlaid the file's
fields onto `DefaultConfig()`; `content none` is a YAML parse failure. -/
inductive ConfigFileOutcome where
  | absent
  | readError (msg : String)
  | content (parsed : Option DriftConfig)

/-- `drift.LoadConfig` (part_000:62-85): absent file yields the defaults;
a read error or parse error propagates; parsed content is validated before
being returned. -/
def loadConfig : ConfigFileOutcome → Except String DriftConfig
  | .absent => .ok defaultConfig
  | .readError m => .error ("reading drift config: " ++ m)
  | .content none => .error "parsing drift config"
  | .content (some c) =>
    match validateConfig c with
    | some e => .error ("invalid drift config: " ++ e)
    | none => .ok c

/-! ## truncateString (model_export.go) -/

/-- `truncateString` (model_export.go:272-284). Go converts the string to a
rune slice before slicing; the embedding works on the rune (Char) list
directly, `maxLen` is a Go `int`. -/
def truncateString (s : List Char) (maxLen : Int) : List Char :=
  if maxLen ≤ 0 then []
  else if (s.length : Int) ≤ maxLen then s
  else if maxLen ≤ 3 then s.take maxLen.toNat
  else s.take (maxLen.toNat - 1) ++ ['…']

/-! ## Theorems for C1, C8, C10 -/

/-- Claim C1: the claim states that both the blocked/ready classification in
`NewModel` and the "ready" filter in `applyFilter` skip a `nil` dependency
entry without fault. On the issue list `[nilDepIssue]` the `NewModel`
counters do skip the `nil` entry (the issue counts as open and ready), but
`applyFilter`'s "ready" case dereferences the `nil` entry and faults: the
code contradicts the spec's nil-skip requirement, a code bug. -/
theorem claim_c1_nil_dependency_code_bug :
    newModelCounts [nilDepIssue] = ⟨1, 1, 0, 0⟩ ∧
    applyFilterReadyInclude [nilDepIssue] nilDepIssue = .error () := by
  constructor
  · rfl
  · rfl

/-- Claim C8: every `*Config` returned by `drift.LoadConfig` together with a
nil error satisfies `Validate`: the parsed path validates explicitly, and the
file-absent path returns `DefaultConfig()`, whose values all lie within the
bounds (including `DensityInfoPct ≤ DensityWarningPct`). -/
theorem claim_c8_loadconfig_validates (fo : ConfigFileOutcome) (c : DriftConfig)
    (h : loadConfig fo = .ok c) : validateConfig c = none := by
  cases fo with
  | absent =>
    simp only [loadConfig, Except.ok.injEq] at h
    subst h
    decide
  | readError m => simp [loadConfig] at h
  | content parsed =>
    cases parsed with
    | none => simp [loadConfig] at h
    | some cfg =>
      simp only [loadConfig] at h
      cases hv : validateConfig cfg with
      | none =>
        rw [hv] at h
        simp only [Except.ok.injEq] at h
        subst h
        exact hv
      | some e => rw [hv] at h; simp at h

/-- Witness for C8: the file-absent path returns the default config and the
theorem yields that it validates. -/
theorem claim_c8_loadconfig_validates_witness :
    loadConfig ConfigFileOutcome.absent = .ok defaultConfig ∧
    validateConfig defaultConfig = none :=
  ⟨rfl, claim_c8_loadconfig_validates ConfigFileOutcome.absent defaultConfig rfl⟩

/-- Claim C10: `truncateString s maxLen` returns at most `max maxLen 0`
runes; a string of at most `maxLen` runes is returned unchanged; and the
result never splits a rune: it is a whole-rune prefix of `s`, possibly
followed by the ellipsis rune. -/
theorem claim_c10_truncate_bounds (s : List Char) (maxLen : Int) :
    ((truncateString s maxLen).length : Int) ≤ max maxLen 0 ∧
    ((s.length : Int) ≤ maxLen → truncateString s maxLen = s) ∧
    ∃ pre, pre <+: s ∧
      (truncateString s maxLen = pre ∨ truncateString s maxLen = pre ++ ['…']) := by
  unfold truncateString
  by_cases h0 : maxLen ≤ 0
  · rw [if_pos h0]
    refine ⟨by simp, ?_, [], ⟨s, rfl⟩, Or.inl rfl⟩
    intro hle
    have hz : s.length = 0 := by omega
    rw [List.length_eq_zero] at hz
    rw [hz]
  · rw [if_neg h0]
    by_cases hfit : (s.length : Int) ≤ maxLen
    · rw [if_pos hfit]
      exact ⟨le_trans hfit (le_max_left _ _), fun _ => rfl, s, ⟨[], by simp⟩,
        Or.inl rfl⟩
    · rw [if_neg hfit]
      by_cases h3 : maxLen ≤ 3
      · rw [if_pos h3]
        refine ⟨?_, fun hc => absurd hc hfit, s.take maxLen.toNat,
          ⟨s.drop maxLen.toNat, List.take_append_drop _ s⟩, Or.inl rfl⟩
        have ht : (s.take maxLen.toNat).length ≤ maxLen.toNat := by
          simp [List.length_take]
        omega
      · rw [if_neg h3]
        refine ⟨?_, fun hc => absurd hc hfit, s.take (maxLen.toNat - 1),
          ⟨s.drop (maxLen.toNat - 1), List.take_append_drop _ s⟩, Or.inr rfl⟩
        have h1 : (s.take (maxLen.toNat - 1)).length ≤ maxLen.toNat - 1 := by
          simp [List.length_take]
        have h2 : (s.take (maxLen.toNat - 1) ++ ['…']).length
            = (s.take (maxLen.toNat - 1)).length + 1 := by simp
        omega

/-- Witness for C10: a concrete string of 2 runes with `maxLen = 5` is within
the bound and returned unchanged. -/
theorem claim_c10_truncate_bounds_witness :
    ((truncateString ['a', 'b'] 5).length : Int) ≤ max 5 0 ∧
    truncateString ['a', 'b'] 5 = ['a', 'b'] :=
  ⟨(claim_c10_truncate_bounds ['a', 'b'] 5).1,
   (claim_c10_truncate_bounds ['a', 'b'] 5).2.1 (by norm_num)⟩

/-! ## The Bubble Tea model state (pkg/ui/model.go)

The `Model` struct is embedded with its data fields kept concretely and the
opaque UI sub-components (lists, panels, analyzers) tracked by generation
tags: a tag changes exactly when the Go code replaces that component with a
freshly constructed instance, so "left unchanged" is tag equality and the
`*GraphStats` pointer-identity check of `Phase2ReadyMsg` is tag equality. -/

/-- Commands returned by `Update` that the claims observe. -/
inductive UICmd where
  | watchFile
  | waitForPhase2 (gen : Nat)
  | buildSemanticIndex
deriving DecidableEq

/-- The fields of `ui.Model` read or written by the `Phase2ReadyMsg` and
`FileChangedMsg` branches of `Update`. -/
structure TuiModel where
  issues : List Issue
  issueMapGen : Nat
  analyzerGen : Nat
  analysisGen : Nat
  beadsPath : String
  hasWatcher : Bool
  counts : Counts
  itemsGen : Nat
  boardGen : Nat
  insightsGen : Nat
  priorityHintsGen : Nat
  alertsGen : Nat
  showAlertsPanel : Bool
  statusMsg : String
  statusIsError : Bool
  showAttentionView : Bool
  attentionExtraText : String
  timeTravelMode : Bool
  timeTravelSince : String
  labelHealthCached : Bool
  attentionCached : Bool
  flowMatrixText : String
  semanticSearchEnabled : Bool
  semanticIndexBuilding : Bool
deriving DecidableEq

/-- `clearAttentionOverlay`: hides the attention overlay and clears its
rendered text when it is showing; a no-op otherwise. -/
def clearAttentionOverlay (m : TuiModel) : TuiModel :=
  if m.showAttentionView then
    { m with showAttentionView := false, attentionExtraText := "" }
  else m

/-- The time-travel exit block of the `FileChangedMsg` branch
(model.go:752-759). -/
def exitTimeTravel (m : TuiModel) : TuiModel :=
  if m.timeTravelMode then
    { m with timeTravelMode := false, timeTravelSince := "" }
  else m

/-- The refresh performed by the `Phase2ReadyMsg` branch once the message is
accepted (model.go:652-720): insights, triage picks, priority hints and
alerts are regenerated, the label-health cache invalidated, and the list
items rebuilt by `applyRecipe`/`applyFilter`. -/
def refreshAfterPhase2 (m : TuiModel) : TuiModel :=
  { m with
    insightsGen := m.insightsGen + 1
    priorityHintsGen := m.priorityHintsGen + 1
    alertsGen := m.alertsGen + 1
    labelHealthCached := false
    itemsGen := m.itemsGen + 1 }

/-- The `Phase2ReadyMsg` branch of `Update` (model.go:647-720).
`msgStatsGen` is the identity of the `*analysis.GraphStats` the completed
Phase 2 was computed for; `msg.Stats != m.analysis` is generation
inequality, and the stale case returns `(m, nil)` unchanged. -/
def updatePhase2Ready (m : TuiModel) (msgStatsGen : Nat) : TuiModel × List UICmd :=
  if msgStatsGen ≠ m.analysisGen then (m, [])
  else (refreshAfterPhase2 m, [])

/-- The comparator of the default reload sort (model.go:788-798): open
before closed, then ascending priority, then newest creation first. -/
def defaultLess (a b : Issue) : Bool :=
  let aClosed := a.status == Status.closed
  let bClosed := b.status == Status.closed
  if aClosed != bClosed then !aClosed
  else if !(a.priority == b.priority) then decide (a.priority < b.priority)
  else decide (b.createdAt < a.createdAt)

/-- Insertion step of the reload sort. -/
def insertIssue (x : Issue) : List Issue → List Issue
  | [] => [x]
  | y :: ys => if defaultLess x y then x :: y :: ys else y :: insertIssue x ys

/-- The `sort.Slice` call on the reloaded issues, realised as an insertion
sort consistent with `defaultLess`. -/
def defaultSortIssues (l : List Issue) : List Issue :=
  l.foldr insertIssue []

/-- The `FileChangedMsg` branch of `Update` (model.go:738-942). The disk
read `loader.LoadIssuesFromFileWithOptions` is the external input `load`.
With no beads path the watch is merely re-armed; otherwise the attention
overlay and time-travel mode are cleared first, then a load error only sets
the status message and re-arms the watch, while a successful load rebuilds
the data, analysis, counts, items, sub-views and schedules the Phase 2
wait. The "(cached)"/warning suffixes of the success status message are
elided (they depend on the out-of-tree analysis cache and loader warnings). -/
def updateFileChanged (m : TuiModel) (load : Except String (List Issue)) :
    TuiModel × List UICmd :=
  if m.beadsPath = "" then
    (m, if m.hasWatcher then [UICmd.watchFile] else [])
  else
    let m1 := exitTimeTravel (clearAttentionOverlay m)
    match load with
    | .error e =>
      ({ m1 with statusMsg := "Reload error: " ++ e, statusIsError := true },
       if m1.hasWatcher then [UICmd.watchFile] else [])
    | .ok newIssues =>
      let sorted := defaultSortIssues newIssues
      let semNeeded := m1.semanticSearchEnabled && !m1.semanticIndexBuilding
      let m2 : TuiModel :=
        { m1 with
          issues := sorted
          analyzerGen := m1.analyzerGen + 1
          analysisGen := m1.analysisGen + 1
          labelHealthCached := false
          attentionCached := false
          flowMatrixText := ""
          issueMapGen := m1.issueMapGen + 1
          priorityHintsGen := m1.priorityHintsGen + 1
          counts := newModelCounts sorted
          alertsGen := m1.alertsGen + 1
          showAlertsPanel := false
          itemsGen := m1.itemsGen + 1
          insightsGen := m1.insightsGen + 1
          boardGen := m1.boardGen + 1
          semanticIndexBuilding := m1.semanticIndexBuilding || semNeeded
          statusMsg := "Reloaded " ++ toString sorted.length ++ " issues"
          statusIsError := false }
      (m2,
        (if semNeeded then [UICmd.buildSemanticIndex] else []) ++
          (if m1.hasWatcher then [UICmd.watchFile] else []) ++
          [UICmd.waitForPhase2 m2.analysisGen])

/-- A baseline model state used for concrete instances. -/
def sampleModel : TuiModel :=
  { issues := []
    issueMapGen := 0, analyzerGen := 0, analysisGen := 0
    beadsPath := "beads.jsonl", hasWatcher := true
    counts := ⟨0, 0, 0, 0⟩
    itemsGen := 0, boardGen := 0, insightsGen := 0
    priorityHintsGen := 0, alertsGen := 0, showAlertsPanel := false
    statusMsg := "", statusIsError := false
    showAttentionView := false, attentionExtraText := ""
    timeTravelMode := false, timeTravelSince := ""
    labelHealthCached := false, attentionCached := false, flowMatrixText := ""
    semanticSearchEnabled := false, semanticIndexBuilding := false }

/-- A model state that is in time-travel mode when the file change arrives. -/
def timeTravelModel : TuiModel :=
  { sampleModel with timeTravelMode := true, timeTravelSince := "HEAD~5" }

/-! ## Theorems for C2 and C9 -/

/-- Claim C2: a `Phase2ReadyMsg` whose `Stats` is not the model's current
analysis instance is discarded: `Update` returns the model unchanged with no
command; only a message carrying the current generation triggers the
insight/triage/alert refresh. -/
theorem claim_c2_stale_phase2_ignored (m : TuiModel) (g : Nat) :
    (g ≠ m.analysisGen → updatePhase2Ready m g = (m, [])) ∧
    (g = m.analysisGen → updatePhase2Ready m g = (refreshAfterPhase2 m, [])) := by
  constructor
  · intro h
    simp [updatePhase2Ready, h]
  · intro h
    simp [updatePhase2Ready, h]

/-- Witness for C2: a completion tagged for generation 1 against a model at
generation 0 is returned unchanged with no command. -/
theorem claim_c2_stale_phase2_ignored_witness :
    (1 ≠ sampleModel.analysisGen) ∧
    updatePhase2Ready sampleModel 1 = (sampleModel, []) :=
  ⟨by decide, (claim_c2_stale_phase2_ignored sampleModel 1).1 (by decide)⟩

/-- Counterexample for C9: the claim says that on a reload error only the
status-message fields change. Starting from a model in time-travel mode,
the error path still returns a model with time-travel mode cleared (the
`FileChangedMsg` branch exits time-travel mode and clears the attention
overlay before attempting the load), so a non-status field changed. -/
theorem counterexample_c9_timetravel_cleared :
    (updateFileChanged timeTravelModel (Except.error "boom")).1.timeTravelMode
      ≠ timeTravelModel.timeTravelMode := by
  decide

/-- Claim C9 (amended): if reloading fails during `FileChangedMsg` handling,
the issue list, issue map, analyzer, analysis handle, counts, list items and
the other data-bearing components are left exactly as they were; besides the
status-message fields, only the attention-overlay and time-travel fields —
cleared unconditionally before the load attempt — may change; and the file
watcher is re-armed for the next change. -/
theorem claim_c9_reload_error_preserves_data (m : TuiModel) (e : String)
    (hpath : m.beadsPath ≠ "") :
    ((updateFileChanged m (Except.error e)).1.issues = m.issues) ∧
    ((updateFileChanged m (Except.error e)).1.issueMapGen = m.issueMapGen) ∧
    ((updateFileChanged m (Except.error e)).1.analyzerGen = m.analyzerGen) ∧
    ((updateFileChanged m (Except.error e)).1.analysisGen = m.analysisGen) ∧
    ((updateFileChanged m (Except.error e)).1.counts = m.counts) ∧
    ((updateFileChanged m (Except.error e)).1.itemsGen = m.itemsGen) ∧
    ((updateFileChanged m (Except.error e)).1.boardGen = m.boardGen) ∧
    ((updateFileChanged m (Except.error e)).1.insightsGen = m.insightsGen) ∧
    ((updateFileChanged m (Except.error e)).1.priorityHintsGen = m.priorityHintsGen) ∧
    ((updateFileChanged m (Except.error e)).1.alertsGen = m.alertsGen) ∧
    ((updateFileChanged m (Except.error e)).1.statusMsg = "Reload error: " ++ e) ∧
    ((updateFileChanged m (Except.error e)).1.statusIsError = true) ∧
    ((updateFileChanged m (Except.error e)).2
      = if m.hasWatcher then [UICmd.watchFile] else []) := by
  unfold updateFileChanged clearAttentionOverlay exitTimeTravel
  rw [if_neg hpath]
  by_cases hatt : m.showAttentionView <;> by_cases htt : m.timeTravelMode <;>
    simp [hatt, htt]

/-- Witness for C9: concrete reload error on the time-travel model; all data
fields are preserved and the watch command is issued. -/
theorem claim_c9_reload_error_preserves_data_witness :
    (timeTravelModel.beadsPath ≠ "") ∧
    (updateFileChanged timeTravelModel (Except.error "boom")).1.issues
      = timeTravelModel.issues ∧
    (updateFileChanged timeTravelModel (Except.error "boom")).2
      = [UICmd.watchFile] :=
  ⟨by decide,
   (claim_c9_reload_error_preserves_data timeTravelModel "boom" (by decide)).1,
   (claim_c9_reload_error_preserves_data timeTravelModel "boom" (by decide)).2.2.2.2.2.2.2.2.2.2.2.2⟩

/-! ## Graph construction (modelled from the spec)

`pkg/analysis` is not part of the source tree (only its callers in `pkg/ui`
are), so the engine below is modelled from the specification, sections 3-4.5,
and each definition's doc comment says so. -/

/-- Modelled from the spec: the Graph's node set is the set of issue ids
(missing `pkg/analysis` graph construction). `dedup` keeps the first
occurrence, giving a deterministic order. -/
def nodesOf (issues : List Issue) : List String :=
  (issues.map (·.id)).dedup

/-- Modelled from the spec: the Graph's edge set is the validated
dependencies — both endpoints resolvable, `nil` entries skipped, multi-edges
and self-loops retained (missing `pkg/analysis` graph construction). -/
def allEdges (issues : List Issue) : List (String × String) :=
  let ns := nodesOf issues
  issues.foldr
    (fun i acc =>
      (i.dependencies.filterMap fun dep =>
        match dep with
        | none => none
        | some d =>
          if ns.contains i.id && ns.contains d.dependsOnID then
            some (i.id, d.dependsOnID)
          else none) ++ acc)
    []

/-- Modelled from the spec: the sub-multiset of `blocks`-kind validated
edges, the ones participating in blocking/critical-path semantics (missing
`pkg/analysis` graph construction). -/
def blocksEdges (issues : List Issue) : List (String × String) :=
  let ns := nodesOf issues
  issues.foldr
    (fun i acc =>
      (i.dependencies.filterMap fun dep =>
        match dep with
        | none => none
        | some d =>
          if d.type.isBlocking && (ns.contains i.id && ns.contains d.dependsOnID) then
            some (i.id, d.dependsOnID)
          else none) ++ acc)
    []

/-! ## Fingerprint (modelled from the spec, claims C3 and C6) -/

/-- The per-issue fingerprint component: (issue id, status, priority,
dependency list). -/
abbrev FingerKey := String × Status × Int × List (Option Dependency)

/-- Modelled from the spec: the tuple hashed per issue by the Fingerprint
(missing `pkg/analysis` fingerprint). -/
def issueKey (i : Issue) : FingerKey :=
  (i.id, i.status, i.priority, i.dependencies)

/-- Modelled from the spec: the Fingerprint is a deterministic,
order-independent digest over the per-issue tuples, used as the cache key
(missing `pkg/analysis` fingerprint); embedded as the multiset of tuples,
the canonical order-independent value. -/
def fingerprintOf (issues : List Issue) : Multiset FingerKey :=
  Multiset.ofList (issues.map issueKey)

/-! ## Result store (modelled from the spec, claims C3 and C4) -/

/-- Phase 1 statistics: node/edge counts, density, blocked/closed counts,
computed synchronously at construction (spec section 4.2). -/
structure Phase1Stats where
  nodeCount : Nat
  edgeCount : Nat
  density : ℚ
  blockedCount : Nat
  closedCount : Nat
deriving DecidableEq

/-- Modelled from the spec: the Phase 1 fast-path summary (missing
`pkg/analysis` Phase 1 summarizer); density is edges / (nodes·(nodes−1))
guarded against nodes ≤ 1. -/
def computePhase1 (issues : List Issue) : Phase1Stats :=
  let n := (nodesOf issues).length
  let e := (allEdges issues).length
  { nodeCount := n
    edgeCount := e
    density := if n ≤ 1 then 0 else (e : ℚ) / ((n : ℚ) * ((n : ℚ) - 1))
    blockedCount := (issues.filter (·.status == Status.blocked)).length
    closedCount := (issues.filter (·.status == Status.closed)).length }

/-- Score lookup in a per-node map, defaulting to 0 for absent ids. -/
def lookupScore (v : List (String × ℚ)) (key : String) : ℚ :=
  match v.find? (fun p => p.1 == key) with
  | some p => p.2
  | none => 0

/-- Height lookup in a per-node map, defaulting to 0 for absent ids. -/
def lookupHeight (v : List (String × Int)) (key : String) : Int :=
  match v.find? (fun p => p.1 == key) with
  | some p => p.2
  | none => 0

/-! ## Cycle detection and critical-path height (modelled from the spec) -/

/-- Successors of `v` in an edge multiset (repeats retained). -/
def succsIn (edges : List (String × String)) (v : String) : List String :=
  edges.filterMap fun e => if e.1 == v then some e.2 else none

/-- One expansion step of fuel-bounded reachability: the set together with
all its direct successors, deduplicated. -/
def reachStep (edges : List (String × String)) (s : List String) : List String :=
  (s ++ s.flatMap (succsIn edges)).dedup

/-- Fuel-bounded expansion of a node set under `reachStep`. -/
def reachAux (edges : List (String × String)) : Nat → List String → List String
  | 0, s => s
  | fuel + 1, s => reachAux edges fuel (reachStep edges s)

/-- Nodes reachable from `v` by at most `fuel` edges (including `v`). With
`fuel` at least the node count this is full reflexive-transitive
reachability. -/
def reachableFrom (edges : List (String × String)) (fuel : Nat) (v : String) :
    List String :=
  reachAux edges fuel [v]

/-- `v` lies on a directed cycle: some successor of `v` can reach `v` (a
self-loop is the one-step case). -/
def inCycleB (edges : List (String × String)) (fuel : Nat) (v : String) : Bool :=
  (succsIn edges v).any fun w => (reachableFrom edges fuel w).contains v

/-- Modelled from the spec: the nodes lying on a cycle of the `blocks` edge
set (missing `pkg/analysis` cycle detection, spec section 4.3). -/
def cycleMembers (issues : List Issue) : List String :=
  let es := blocksEdges issues
  let ns := nodesOf issues
  ns.filter (inCycleB es ns.length)

/-- Modelled from the spec: the strongly connected component of `v` inside
the `blocks` graph — the nodes mutually reachable with `v` — listed in node
order (missing `pkg/analysis` SCC decomposition). -/
def sccOf (issues : List Issue) (v : String) : List String :=
  let es := blocksEdges issues
  let ns := nodesOf issues
  let fuel := ns.length
  ns.filter fun w =>
    (reachableFrom es fuel v).contains w && (reachableFrom es fuel w).contains v

/-- Modelled from the spec: `Cycles()` — every SCC of size > 1 and every
self-loop is reported as a cycle, each SCC once (missing `pkg/analysis`
cycle detection). All functions here are total, so the computation
terminates on every input, cyclic graphs included. -/
def cyclesOf (issues : List Issue) : List (List String) :=
  ((cycleMembers issues).map (sccOf issues)).dedup

/-- Modelled from the spec: the `HasCycle` flag (missing `pkg/analysis`
cycle detection). -/
def hasCycleB (issues : List Issue) : Bool :=
  !(cyclesOf issues).isEmpty

/-- Fuel-bounded longest downstream chain of `blocks` edges. On the acyclic
part of the graph, fuel equal to the node count computes the exact height. -/
def heightFuel (edges : List (String × String)) : Nat → String → Int
  | 0, _ => 0
  | fuel + 1, v =>
    let ss := succsIn edges v
    if ss.isEmpty then 0
    else 1 + (ss.map (heightFuel edges fuel)).foldr max 0

/-- The sentinel height assigned to cycle members (spec section 4.3: cycle
members get a sentinel height rather than looping forever). -/
def sentinelHeight : Int := -1

/-- Modelled from the spec: per-node critical-path height — cycle members
get the sentinel, the rest the fuel-bounded longest `blocks` chain (missing
`pkg/analysis` critical-path computation). -/
def heightOf (issues : List Issue) (v : String) : Int :=
  if (cycleMembers issues).contains v then sentinelHeight
  else heightFuel (blocksEdges issues) (nodesOf issues).length v

/-- The nodes that participate in longest-path reporting: cycle members are
excluded (spec section 4.3). -/
def longestPathNodes (issues : List Issue) : List String :=
  (nodesOf issues).filter fun v => !(cycleMembers issues).contains v

/-- Modelled from the spec: the reported longest `blocks` chain length,
taken over the non-cycle nodes only. -/
def longestPathReport (issues : List Issue) : Int :=
  ((longestPathNodes issues).map (heightOf issues)).foldr max 0

/-! ## PageRank (modelled from the spec, claim C5) -/

/-- The damping factor 0.85 (spec section 4.3). -/
def prDamp : ℚ := 85 / 100

/-- Out-degree of `v` in an edge multiset. -/
def outdeg (edges : List (String × String)) (v : String) : Nat :=
  (edges.filter fun e => e.1 == v).length

/-- In-neighbors of `v`, with one entry per incoming edge. -/
def inNbrs (edges : List (String × String)) (v : String) : List String :=
  edges.filterMap fun e => if e.2 == v then some e.1 else none

/-- Modelled from the spec: one PageRank power-iteration step — teleport
mass (1−d)/N to every node, dangling-node mass redistributed uniformly, and
each node's score split over its out-edges (missing `pkg/analysis`
PageRank). -/
def prStep (ns : List String) (edges : List (String × String))
    (v : List (String × ℚ)) : List (String × ℚ) :=
  let n : ℚ := ns.length
  let dangling : ℚ :=
    (ns.filter fun u => outdeg edges u == 0).foldr
      (fun u acc => lookupScore v u + acc) 0
  ns.map fun u =>
    let inMass : ℚ :=
      (inNbrs edges u).foldr
        (fun w acc => lookupScore v w / (outdeg edges w : ℚ) + acc) 0
    (u, (1 - prDamp) / n + prDamp * (inMass + dangling / n))

/-- L1 distance between two score maps over the node list. -/
def prDelta (ns : List String) (a b : List (String × ℚ)) : ℚ :=
  ns.foldr (fun u acc => |lookupScore a u - lookupScore b u| + acc) 0

/-- Modelled from the spec: iterate until the L1 delta drops below 1e-6 or
the iteration cap is exhausted, whichever first (missing `pkg/analysis`
PageRank). -/
def prLoop (ns : List String) (edges : List (String × String)) :
    Nat → List (String × ℚ) → List (String × ℚ)
  | 0, v => v
  | fuel + 1, v =>
    let next := prStep ns edges v
    if prDelta ns v next < 1 / 1000000 then next
    else prLoop ns edges fuel next

/-- Uniform initial mass 1/N (spec section 4.3). -/
def prInit (ns : List String) : List (String × ℚ) :=
  ns.map fun u => (u, 1 / (ns.length : ℚ))

/-- Sum of the scores of a per-node map. -/
def scoreSum (v : List (String × ℚ)) : ℚ :=
  (v.map (·.2)).sum

/-- Final normalization so the scores sum to 1 across all nodes (spec
section 4.3). -/
def normalizeScores (v : List (String × ℚ)) : List (String × ℚ) :=
  let s := scoreSum v
  v.map fun p => (p.1, p.2 / s)

/-- Modelled from the spec: the published PageRank score map — 100-capped
power iteration from the uniform vector, then normalization (missing
`pkg/analysis` PageRank). A graph with no nodes yields an empty map (spec
section 7: zero-node graphs degrade to zero scores). -/
def pageRankScores (issues : List Issue) : List (String × ℚ) :=
  let ns := nodesOf issues
  if ns.isEmpty then []
  else normalizeScores (prLoop ns (allEdges issues) 100 (prInit ns))

/-! ## Result store, publication and fingerprint cache (modelled from the
spec, claims C3 and C4) -/

/-- Phase 2 statistics: the per-node score maps and global cycle data
published atomically by the background computation (spec section 3). -/
structure Phase2Stats where
  pageRank : List (String × ℚ)
  heights : List (String × Int)
  cycles : List (List String)
  hasCycle : Bool
deriving DecidableEq

/-- Modelled from the spec: the full Phase 2 result set, built privately and
published as one value (missing `pkg/analysis` deep analytics engine). -/
def computePhase2 (issues : List Issue) : Phase2Stats :=
  { pageRank := pageRankScores issues
    heights := (nodesOf issues).map fun v => (v, heightOf issues v)
    cycles := cyclesOf issues
    hasCycle := hasCycleB issues }

/-- Modelled from the spec: the Result Store — Phase 1 populated at
construction, Phase 2 a single-assignment cell that is `none` until the
background computation publishes (missing `pkg/analysis` GraphStats). -/
structure GraphStats where
  phase1 : Phase1Stats
  phase2 : Option Phase2Stats
deriving DecidableEq

/-- Modelled from the spec: `AnalyzeAsync` returns immediately with Phase 1
populated and Phase 2 not yet published (missing `pkg/analysis`). The
returned value is the handle as observed before publication. -/
def analyzeAsync (issues : List Issue) : GraphStats :=
  { phase1 := computePhase1 issues, phase2 := none }

/-- Modelled from the spec: the atomic Phase 2 publication into the result
store (missing `pkg/analysis`). -/
def publishPhase2 (issues : List Issue) (s : GraphStats) : GraphStats :=
  { s with phase2 := some (computePhase2 issues) }

/-- A Phase-2-complete `GraphStats` for an issue set, as held by the cache
after a completed analysis. -/
def completedStats (issues : List Issue) : GraphStats :=
  publishPhase2 issues (analyzeAsync issues)

/-- Modelled from the spec: `GetPageRankScore` — 0 (the documented default)
until Phase 2 publishes, the published score afterwards; a total function,
so it can neither error nor block (missing `pkg/analysis`). -/
def GraphStats.getPageRankScore (s : GraphStats) (issueId : String) : ℚ :=
  match s.phase2 with
  | none => 0
  | some p => lookupScore p.pageRank issueId

/-- Modelled from the spec: `GetCriticalPathScore` — 0 until Phase 2
publishes, the published height afterwards (missing `pkg/analysis`). -/
def GraphStats.getCriticalPathScore (s : GraphStats) (issueId : String) : ℚ :=
  match s.phase2 with
  | none => 0
  | some p => (lookupHeight p.heights issueId : ℚ)

/-- Modelled from the spec: `Cycles()` — empty until Phase 2 publishes
(missing `pkg/analysis`). -/
def GraphStats.cyclesList (s : GraphStats) : List (List String) :=
  match s.phase2 with
  | none => []
  | some p => p.cycles

/-- The fingerprint cache's retained entry: the fingerprint of the most
recent completed analysis together with its published stats (spec
section 5: most-recent generation only). -/
structure AnalyzerCacheEntry where
  fingerprint : Multiset FingerKey
  stats : GraphStats
deriving DecidableEq

/-- The observable outcome of `NewCachedAnalyzer`: the stats handle,
`WasCacheHit`, and whether a fresh Phase 2 computation was started (the
instrumented counter of spec section 8, property 4). -/
structure CachedAnalyzer where
  stats : GraphStats
  wasCacheHit : Bool
  startedPhase2 : Bool
deriving DecidableEq

/-- Modelled from the spec: `NewCachedAnalyzer(issues, previousCache)` —
compute the incoming fingerprint; on a match with a previously completed
analysis reuse its cached `GraphStats` with `wasCacheHit = true` and start
nothing; otherwise start a fresh `AnalyzeAsync` (missing `pkg/analysis`
cache layer, spec section 4.5). -/
def newCachedAnalyzer (issues : List Issue) (prev : Option AnalyzerCacheEntry) :
    CachedAnalyzer :=
  match prev with
  | some c =>
    if fingerprintOf issues = c.fingerprint then
      { stats := c.stats, wasCacheHit := true, startedPhase2 := false }
    else
      { stats := analyzeAsync issues, wasCacheHit := false, startedPhase2 := true }
  | none =>
    { stats := analyzeAsync issues, wasCacheHit := false, startedPhase2 := true }

/-! ## Theorems for C6, C4, C3 -/

/-- Claim C6: two semantically identical issue sets presented in different
orders — permutations of each other, with the same per-issue (id, status,
priority, dependency list) tuples — have identical Fingerprints. -/
theorem claim_c6_fingerprint_order_independent (l1 l2 : List Issue)
    (h : l1.Perm l2) : fingerprintOf l1 = fingerprintOf l2 :=
  Quot.sound (h.map issueKey)

/-- Two concrete issues for the C6 witness. -/
def issueA : Issue :=
  { id := "A", status := Status.opened, priority := 0, createdAt := 0
    dependencies := [some { issueID := "A", dependsOnID := "B", type := DepType.blocks }] }

/-- Second concrete issue for the C6 witness. -/
def issueB : Issue :=
  { id := "B", status := Status.inProgress, priority := 3, createdAt := 1
    dependencies := [] }

/-- Witness for C6: the two-element issue set in both orders fingerprints
identically. -/
theorem claim_c6_fingerprint_order_independent_witness :
    ([issueA, issueB].Perm [issueB, issueA]) ∧
    fingerprintOf [issueA, issueB] = fingerprintOf [issueB, issueA] :=
  ⟨List.Perm.swap issueB issueA [],
   claim_c6_fingerprint_order_independent _ _ (List.Perm.swap issueB issueA [])⟩

/-- Claim C4: on the handle returned by `AnalyzeAsync`, before Phase 2 has
published, every per-node score accessor returns 0 and `Cycles()` returns
empty, for every issue set and every issue id; the accessors are total
functions of the handle, so no call errors or blocks. -/
theorem claim_c4_accessors_default_before_publish (issues : List Issue)
    (issueId : String) :
    (analyzeAsync issues).getPageRankScore issueId = 0 ∧
    (analyzeAsync issues).getCriticalPathScore issueId = 0 ∧
    (analyzeAsync issues).cyclesList = [] :=
  ⟨rfl, rfl, rfl⟩

/-- Claim C3: constructing the cached analyzer over an issue set whose
fingerprint matches a previously completed analysis yields
`wasCacheHit = true`, returns that prior Phase-2-complete `GraphStats`
itself (hence identical scores), and starts no second Phase 2 computation.
This is the contract exercised by the file-reload path of `Update`
(model.go:802-805), which constructs the cached analyzer and queries
`WasCacheHit`. -/
theorem claim_c3_cache_hit_reuses_stats (issues prevIssues : List Issue)
    (hfp : fingerprintOf issues = fingerprintOf prevIssues) :
    (newCachedAnalyzer issues
        (some ⟨fingerprintOf prevIssues, completedStats prevIssues⟩)).wasCacheHit
      = true ∧
    (newCachedAnalyzer issues
        (some ⟨fingerprintOf prevIssues, completedStats prevIssues⟩)).stats
      = completedStats prevIssues ∧
    (newCachedAnalyzer issues
        (some ⟨fingerprintOf prevIssues, completedStats prevIssues⟩)).startedPhase2
      = false ∧
    (completedStats prevIssues).phase2 = some (computePhase2 prevIssues) := by
  simp only [newCachedAnalyzer]
  rw [if_pos hfp]
  exact ⟨rfl, rfl, rfl, rfl⟩

/-- Witness for C3: reanalyzing the unchanged two-issue set hits the cache,
reuses the completed stats and starts no Phase 2. -/
theorem claim_c3_cache_hit_reuses_stats_witness :
    (fingerprintOf [issueA, issueB] = fingerprintOf [issueA, issueB]) ∧
    (newCachedAnalyzer [issueA, issueB]
        (some ⟨fingerprintOf [issueA, issueB], completedStats [issueA, issueB]⟩)).wasCacheHit
      = true :=
  ⟨rfl, (claim_c3_cache_hit_reuses_stats [issueA, issueB] [issueA, issueB] rfl).1⟩

/-! ## Theorems for C7 -/

/-- Issue `A`, blocked-on `B`, for the A→B→A cycle instance. -/
def cycIssueA : Issue :=
  { id := "A", status := Status.opened, priority := 0, createdAt := 0
    dependencies := [some { issueID := "A", dependsOnID := "B", type := DepType.blocks }] }

/-- Issue `B`, blocked-on `A`, for the A→B→A cycle instance. -/
def cycIssueB : Issue :=
  { id := "B", status := Status.opened, priority := 0, createdAt := 0
    dependencies := [some { issueID := "B", dependsOnID := "A", type := DepType.blocks }] }

/-- The two-issue set whose `blocks` edges form the cycle A→B→A. -/
def cycIssues : List Issue := [cycIssueA, cycIssueB]

/-- Claim C7: the critical-path/cycle computation is total (hence terminates
on every issue set, cyclic ones included); every cycle member gets the
sentinel height and is excluded from longest-path reporting; a nonempty
cycle membership sets `HasCycle`; and on the concrete graph A→B→A,
`Cycles()` returns exactly one cycle, containing A and B, both of which get
the sentinel height. -/
theorem claim_c7_cycles_terminate_and_report (issues : List Issue) :
    (∀ v, v ∈ cycleMembers issues →
      heightOf issues v = sentinelHeight ∧ v ∉ longestPathNodes issues) ∧
    (cycleMembers issues ≠ [] → hasCycleB issues = true) ∧
    cyclesOf cycIssues = [["A", "B"]] ∧
    hasCycleB cycIssues = true ∧
    heightOf cycIssues "A" = sentinelHeight ∧
    heightOf cycIssues "B" = sentinelHeight := by
  refine ⟨?_, ?_, by decide, by decide, by decide, by decide⟩
  · intro v hv
    have hc : (cycleMembers issues).contains v = true :=
      List.elem_eq_true_of_mem hv
    constructor
    · unfold heightOf
      rw [if_pos hc]
    · intro hmem
      have hsplit := List.mem_filter.mp hmem
      simp at hsplit
      exact hsplit.2 hv
  · intro h
    have hd : cyclesOf issues ≠ [] := by
      simpa [cyclesOf, List.dedup_eq_nil, List.map_eq_nil_iff] using h
    simp [hasCycleB, List.isEmpty_iff, hd]

/-- Witness for C7: node `A` is a cycle member of the A→B→A instance and the
theorem assigns it the sentinel height. -/
theorem claim_c7_cycles_terminate_and_report_witness :
    ("A" ∈ cycleMembers cycIssues) ∧ heightOf cycIssues "A" = sentinelHeight :=
  ⟨by decide,
   ((claim_c7_cycles_terminate_and_report cycIssues).1 "A" (by decide)).1⟩

/-! ## PageRank sum lemmas and theorems for C5 -/

/-- A score lookup in a map of nonnegative scores is nonnegative. -/
theorem lookupScore_nonneg (v : List (String × ℚ)) (h : ∀ p ∈ v, 0 ≤ p.2)
    (u : String) : 0 ≤ lookupScore v u := by
  unfold lookupScore
  cases hf : v.find? (fun p => p.1 == u) with
  | none => exact le_refl 0
  | some p => exact h p (List.mem_of_find?_eq_some hf)

/-- Folding `+` over pointwise-nonnegative contributions is nonnegative. -/
theorem foldr_add_nonneg {α : Type} (f : α → ℚ) (l : List α)
    (h : ∀ x ∈ l, 0 ≤ f x) : 0 ≤ l.foldr (fun x acc => f x + acc) 0 := by
  induction l with
  | nil => exact le_refl 0
  | cons x xs ih =>
    exact add_nonneg (h x (List.mem_cons_self x xs))
      (ih fun y hy => h y (List.mem_cons_of_mem x hy))

/-- Every entry of a PageRank step over a nonnegative vector is strictly
positive: the teleport term (1−d)/N is positive and the link and dangling
terms are nonnegative. -/
theorem prStep_pos (ns : List String) (edges : List (String × String))
    (hn : ns ≠ []) (v : List (String × ℚ)) (hv : ∀ p ∈ v, 0 ≤ p.2) :
    ∀ p ∈ prStep ns edges v, 0 < p.2 := by
  intro p hp
  unfold prStep at hp
  simp only [List.mem_map] at hp
  obtain ⟨u, hu, rfl⟩ := hp
  dsimp only
  have hnpos : (0 : ℚ) < (ns.length : ℚ) := by
    exact_mod_cast List.length_pos.mpr hn
  have h1 : (0 : ℚ) < (1 - prDamp) / (ns.length : ℚ) :=
    div_pos (by norm_num [prDamp]) hnpos
  have h2 : (0 : ℚ) ≤
      (inNbrs edges u).foldr
        (fun w acc => lookupScore v w / (outdeg edges w : ℚ) + acc) 0 :=
    foldr_add_nonneg (fun w => lookupScore v w / (outdeg edges w : ℚ)) _
      fun w _ => div_nonneg (lookupScore_nonneg v hv w) (Nat.cast_nonneg _)
  have h3 : (0 : ℚ) ≤
      (ns.filter fun u => outdeg edges u == 0).foldr
        (fun u acc => lookupScore v u + acc) 0 :=
    foldr_add_nonneg (fun u => lookupScore v u) _
      fun w _ => lookupScore_nonneg v hv w
  refine add_pos_of_pos_of_nonneg h1 (mul_nonneg (by norm_num [prDamp]) ?_)
  exact add_nonneg h2 (div_nonneg h3 (le_of_lt hnpos))

/-- The iteration preserves strict positivity of every entry. -/
theorem prLoop_pos (ns : List String) (edges : List (String × String))
    (hn : ns ≠ []) :
    ∀ fuel v, (∀ p ∈ v, 0 < p.2) → ∀ p ∈ prLoop ns edges fuel v, 0 < p.2 := by
  intro fuel
  induction fuel with
  | zero =>
    intro v hv
    simpa [prLoop] using hv
  | succ fuel ih =>
    intro v hv
    simp only [prLoop]
    split
    · exact prStep_pos ns edges hn v fun p hp => le_of_lt (hv p hp)
    · exact ih (prStep ns edges v)
        (prStep_pos ns edges hn v fun p hp => le_of_lt (hv p hp))

/-- Mapping first projections over a key-value pairing returns the keys. -/
theorem map_fst_of_pairing {α β : Type} (g : α → β) (l : List α) :
    (l.map fun u => (u, g u)).map Prod.fst = l := by
  induction l with
  | nil => rfl
  | cons x xs ih => simp [ih]

/-- A PageRank step is keyed exactly by the node list. -/
theorem prStep_fst (ns : List String) (edges : List (String × String))
    (v : List (String × ℚ)) : (prStep ns edges v).map Prod.fst = ns := by
  unfold prStep
  exact map_fst_of_pairing _ ns

/-- The iteration preserves the key list. -/
theorem prLoop_fst (ns : List String) (edges : List (String × String)) :
    ∀ fuel v, v.map Prod.fst = ns →
      (prLoop ns edges fuel v).map Prod.fst = ns := by
  intro fuel
  induction fuel with
  | zero =>
    intro v hv
    simpa [prLoop] using hv
  | succ fuel ih =>
    intro v _
    simp only [prLoop]
    split
    · exact prStep_fst ns edges v
    · exact ih (prStep ns edges v) (prStep_fst ns edges v)

/-- The initial uniform vector has positive entries on a nonempty node
list. -/
theorem prInit_pos (ns : List String) (hn : ns ≠ []) :
    ∀ p ∈ prInit ns, 0 < p.2 := by
  intro p hp
  unfold prInit at hp
  simp only [List.mem_map] at hp
  obtain ⟨u, hu, rfl⟩ := hp
  dsimp only
  have hnpos : (0 : ℚ) < (ns.length : ℚ) := by
    exact_mod_cast List.length_pos.mpr hn
  exact div_pos one_pos hnpos

/-- The initial uniform vector is keyed by the node list. -/
theorem prInit_fst (ns : List String) : (prInit ns).map Prod.fst = ns := by
  unfold prInit
  exact map_fst_of_pairing _ ns

/-- Pointwise division distributes over a list sum. -/
theorem sum_map_div (l : List ℚ) (s : ℚ) :
    (l.map fun x => x / s).sum = l.sum / s := by
  induction l with
  | nil => simp
  | cons x xs ih => simp [ih, div_add_div_same]

/-- Dividing every score by `s` divides the score sum by `s`. -/
theorem scoreSum_map_div (v : List (String × ℚ)) (s : ℚ) :
    scoreSum (v.map fun p => (p.1, p.2 / s)) = scoreSum v / s := by
  induction v with
  | nil => simp [scoreSum]
  | cons p ps ih =>
    unfold scoreSum at ih ⊢
    simp only [List.map_cons, List.sum_cons]
    rw [ih, div_add_div_same]

/-- Normalization by a nonzero total produces scores summing to exactly 1. -/
theorem scoreSum_normalize (v : List (String × ℚ)) (hs : scoreSum v ≠ 0) :
    scoreSum (normalizeScores v) = 1 := by
  show scoreSum (v.map fun p => (p.1, p.2 / scoreSum v)) = 1
  rw [scoreSum_map_div, div_self hs]

/-- Counterexample for C5: the claim quantifies over every issue set, but on
the empty issue set the engine publishes an empty score map (zero-node
graphs degrade to zero scores), whose sum is 0, not within 1e-6 of 1. -/
theorem counterexample_c5_empty_issue_set :
    ¬ |scoreSum (pageRankScores ([] : List Issue)) - 1| ≤ 1 / 1000000 := by
  have h : pageRankScores ([] : List Issue) = [] := rfl
  rw [h]
  norm_num [scoreSum]

/-- Claim C5 (amended): for every issue set with at least one node, after
Phase 2 publishes, the PageRank scores sum to exactly 1 (and hence to 1
within 1e-6): the published map is the explicit normalization of an
everywhere-positive iterate. -/
theorem claim_c5_pagerank_sums_to_one (issues : List Issue)
    (hn : nodesOf issues ≠ []) :
    scoreSum (pageRankScores issues) = 1 ∧
    |scoreSum (pageRankScores issues) - 1| ≤ 1 / 1000000 := by
  have hmain : scoreSum (pageRankScores issues) = 1 := by
    unfold pageRankScores
    rw [if_neg (by simpa [List.isEmpty_iff] using hn)]
    have hpos :
        ∀ p ∈ prLoop (nodesOf issues) (allEdges issues) 100 (prInit (nodesOf issues)),
          0 < p.2 :=
      prLoop_pos (nodesOf issues) (allEdges issues) hn 100 (prInit (nodesOf issues))
        (prInit_pos (nodesOf issues) hn)
    have hfst :
        (prLoop (nodesOf issues) (allEdges issues) 100
          (prInit (nodesOf issues))).map Prod.fst = nodesOf issues :=
      prLoop_fst (nodesOf issues) (allEdges issues) 100 (prInit (nodesOf issues))
        (prInit_fst (nodesOf issues))
    have hne :
        prLoop (nodesOf issues) (allEdges issues) 100 (prInit (nodesOf issues)) ≠ [] := by
      intro hnil
      apply hn
      rw [← hfst, hnil]
      rfl
    have hsum :
        0 < scoreSum
          (prLoop (nodesOf issues) (allEdges issues) 100 (prInit (nodesOf issues))) := by
      unfold scoreSum
      refine List.sum_pos _ ?_ ?_
      · intro x hx
        obtain ⟨p, hp, rfl⟩ := List.mem_map.mp hx
        exact hpos p hp
      · simpa [List.map_eq_nil_iff] using hne
    exact scoreSum_normalize _ (ne_of_gt hsum)
  exact ⟨hmain, by rw [hmain]; norm_num⟩

/-- A single unblocked issue, giving a one-node graph for the C5 witness. -/
def soloIssue : Issue :=
  { id := "solo", status := Status.opened, priority := 0, createdAt := 0
    dependencies := [] }

/-- Witness for C5: the one-issue set has a nonempty node list and its
published PageRank sums to 1. -/
theorem claim_c5_pagerank_sums_to_one_witness :
    (nodesOf [soloIssue] ≠ []) ∧ scoreSum (pageRankScores [soloIssue]) = 1 :=
  ⟨by decide, (claim_c5_pagerank_sums_to_one [soloIssue] (by decide)).1⟩
